import Mathlib

/-!
Verification development for the github-mcp-worker repository.

The repository implements a read-only GitHub MCP server with an OAuth
pass-through façade.  The relevant source files are shallowly embedded
below:

* `src/auth.ts` (OAuth façade and credential resolver): `handleToken`,
  `handleRegister`, `parseBody`, `resolveGitHubToken`;
* the worker entry (`src/worker.ts`): the `/mcp` credential fallback
  `resolveGitHubToken(request) || env.GITHUB_PAT`, embedded as
  `edgeResolvedPat`;
* `src/main.ts` (local CLI entry): `getArg` and the startup credential
  chain `getArg("--github-pat") || process.env.GITHUB_PAT || undefined`,
  embedded as `localResolvedPat`;
* `src/server.ts` (current tool registry): `githubFetch` /
  `githubRawFetch` header construction and error handling, and the URL
  builders of the paginated tools;
* `src/index.ts` (legacy agent-based registry): its `githubFetch`
  headers and the URL builders that differ from `server.ts`.

JavaScript platform primitives used by that code (string `startsWith`,
`slice`, `includes`, `encodeURIComponent`, `URLSearchParams`,
`Object.fromEntries`, property access, `||` / `!` truthiness, template
interpolation of `undefined`) are modelled explicitly; `JSON.parse` is
passed as an abstract parameter wherever the source calls it, since its
result is data the façade merely inspects.
-/

/-! ## JavaScript platform primitives -/

/-- JS truthiness of a `string | undefined` value: `undefined` and the
empty string are falsy. -/
def jsFalsy : Option String → Bool
  | none => true
  | some s => s == ""

/-- JS template interpolation of a `string | undefined` value:
`undefined` prints as the string "undefined". -/
def jsToString : Option String → String
  | none => "undefined"
  | some s => s

/-- JS `a || b` on `string | undefined` values. -/
def jsOr (a b : Option String) : Option String :=
  if jsFalsy a then b else a

/-- JS `a || b` where the right operand is a plain string. -/
def jsOrDefault (a : Option String) (d : String) : String :=
  match a with
  | none => d
  | some s => if s == "" then d else s

/-- JS `String.prototype.startsWith`, on character sequences. -/
def jsStartsWith (s pat : String) : Bool :=
  pat.data.isPrefixOf s.data

/-- JS `String.prototype.slice(n)` (the sliced prefix "Bearer " is pure
ASCII, so code-unit and character counting agree). -/
def jsSlice (s : String) (n : Nat) : String :=
  ⟨s.data.drop n⟩

/-- JS `String.prototype.includes`. -/
def jsIncludes (s pat : String) : Bool :=
  decide (pat.data <:+: s.data)

/-- Value of a hexadecimal digit character. -/
def hexVal (c : Char) : Option Nat :=
  if decide ('0' ≤ c) && decide (c ≤ '9') then some (c.toNat - 48)
  else if decide ('a' ≤ c) && decide (c ≤ 'f') then some (c.toNat - 87)
  else if decide ('A' ≤ c) && decide (c ≤ 'F') then some (c.toNat - 55)
  else none

/-- Percent-decoding as performed by `URLSearchParams`: a `%` followed
by two hex digits decodes to that byte; an ill-formed escape is kept
verbatim.  Multi-byte UTF-8 sequences are decoded bytewise here, which
is immaterial to every property proved below.  The fuel argument makes
the recursion structural; `fuel = length` fully processes the list. -/
def percentDecodeAux : Nat → List Char → List Char
  | 0, l => l
  | _ + 1, [] => []
  | fuel + 1, '%' :: h1 :: h2 :: rest =>
    match hexVal h1, hexVal h2 with
    | some a, some b => Char.ofNat (16 * a + b) :: percentDecodeAux fuel rest
    | _, _ => '%' :: percentDecodeAux fuel (h1 :: h2 :: rest)
  | fuel + 1, c :: rest => c :: percentDecodeAux fuel rest

/-- Percent-decode a character list. -/
def percentDecodeList (l : List Char) : List Char :=
  percentDecodeAux l.length l

/-- `URLSearchParams` decoding of one form component: `+` becomes a
space, then percent-escapes are decoded. -/
def formDecode (s : String) : String :=
  ⟨percentDecodeList (s.data.map (fun c => if c = '+' then ' ' else c))⟩

/-- Record of parsed body fields, as produced by
`Object.fromEntries(new URLSearchParams(text))` or `JSON.parse`.
Duplicate keys may occur in the raw list; JS object semantics make the
last occurrence win, which `jsGet` implements. -/
abbrev FormBody := List (String × String)

/-- JS object property read on a parsed body (last occurrence wins, as
with `Object.fromEntries` and `JSON.parse`). -/
def jsGet (b : FormBody) (k : String) : Option String :=
  b.reverse.lookup k

/-- `new URLSearchParams(text)` splitting: a leading `?` is stripped,
entries are separated by `&`, empty segments are skipped, and each
entry splits at its first `=` (a missing `=` yields an empty value). -/
def formParse (s : String) : FormBody :=
  let s := if jsStartsWith s "?" then jsSlice s 1 else s
  (s.splitOn "&").filterMap fun seg =>
    if seg = "" then none
    else match seg.splitOn "=" with
      | [] => none
      | k :: rest => some (formDecode k, formDecode (String.intercalate "=" rest))

/-- Hexadecimal digit (uppercase) of a value below 16. -/
def hexDigitUpper (n : Nat) : Char :=
  Char.ofNat (if n < 10 then 48 + n else 55 + n)

/-- `%XX` escape of one byte. -/
def percentByte (n : Nat) : String :=
  "%" ++ String.singleton (hexDigitUpper (n / 16)) ++ String.singleton (hexDigitUpper (n % 16))

/-- UTF-8 bytes of one character. -/
def utf8Bytes (c : Char) : List Nat :=
  let n := c.toNat
  if n < 128 then [n]
  else if n < 2048 then [192 + n / 64, 128 + n % 64]
  else if n < 65536 then [224 + n / 4096, 128 + (n / 64) % 64, 128 + n % 64]
  else [240 + n / 262144, 128 + (n / 4096) % 64, 128 + (n / 64) % 64, 128 + n % 64]

/-- Characters `encodeURIComponent` leaves unescaped: ASCII
alphanumerics, the marks `- _ . ! ~ * ( )` and the apostrophe
(code 39). -/
def isUnescapedURI (c : Char) : Bool :=
  c.isAlphanum || c = '-' || c = '_' || c = '.' || c = '!' || c = '~' ||
    c = '*' || c.toNat = 39 || c = '(' || c = ')'

/-- JS `encodeURIComponent`. -/
def encodeURIComponent (s : String) : String :=
  String.join (s.data.map fun c =>
    if isUnescapedURI c then String.singleton c
    else String.join ((utf8Bytes c).map percentByte))

/-! ## OAuth façade: token endpoint (`handleToken`, src/auth.ts) -/

/-- Body of a token-endpoint response: either a token payload
(`access_token`, `token_type`, optional `refresh_token`) or an OAuth
error (`error`, `error_description`). -/
inductive TokBody where
  | token (access_token : String) (token_type : String) (refresh_token : Option String)
  | err (error : String) (error_description : String)
deriving DecidableEq

/-- A token-endpoint HTTP response: status plus JSON body (every such
response also carries `Cache-Control: no-store`, not modelled). -/
structure TokResp where
  status : Nat
  body : TokBody
deriving DecidableEq

/-- `handleToken` from src/auth.ts, after body parsing: branches on
`grant_type` and echoes the supplied secret back as the access token. -/
def handleToken (method : String) (body : Option FormBody) : TokResp :=
  if method ≠ "POST" then ⟨405, .err "invalid_request" "Method must be POST"⟩
  else match body with
  | none => ⟨400, .err "invalid_request" "Invalid request body"⟩
  | some b =>
    let grantType := jsGet b "grant_type"
    if grantType = some "client_credentials" then
      let clientSecret := jsGet b "client_secret"
      if jsFalsy clientSecret then ⟨400, .err "invalid_request" "client_secret is required"⟩
      else ⟨200, .token (jsToString clientSecret) "Bearer" none⟩
    else if grantType = some "authorization_code" then
      let clientSecret := jsGet b "client_secret"
      if jsFalsy clientSecret then
        ⟨400, .err "invalid_grant" "client_secret is required for token exchange"⟩
      else ⟨200, .token (jsToString clientSecret) "Bearer" none⟩
    else if grantType = some "refresh_token" then
      let refreshToken := jsGet b "refresh_token"
      if jsFalsy refreshToken then ⟨400, .err "invalid_request" "refresh_token is required"⟩
      else ⟨200, .token (jsToString refreshToken) "Bearer" (some (jsToString refreshToken))⟩
    else ⟨400, .err "unsupported_grant_type" ("Unsupported grant_type: " ++ jsToString grantType)⟩

/-- `parseBody` from src/auth.ts.  `jsonParse` is the platform
`JSON.parse` (`none` models a parse exception, caught by the source's
`try`/`catch`).  With a form content type the body is decoded with
`URLSearchParams`; with a JSON content type with `JSON.parse`; otherwise
the source tries `URLSearchParams` first and falls back to `JSON.parse`
only if the former throws — `URLSearchParams` never throws, so the
fallback branch always form-decodes. -/
def parseBody (jsonParse : String → Option FormBody)
    (contentType : Option String) (text : String) : Option FormBody :=
  let ct := contentType.getD ""
  if jsIncludes ct "application/x-www-form-urlencoded" then some (formParse text)
  else if jsIncludes ct "application/json" then jsonParse text
  else some (formParse text)

/-- The full token endpoint: parse the body, then dispatch. -/
def tokenEndpoint (jsonParse : String → Option FormBody)
    (method : String) (contentType : Option String) (text : String) : TokResp :=
  handleToken method (parseBody jsonParse contentType text)

/-! ## Credential resolver (`resolveGitHubToken`, src/auth.ts) -/

/-- `resolveGitHubToken` from src/auth.ts, as a function of the
request's `Authorization` header (`none` when the header is absent):
returns the text after "Bearer " verbatim, else `undefined`. -/
def resolveGitHubToken (authHeader : Option String) : Option String :=
  match authHeader with
  | none => none
  | some h => if jsStartsWith h "Bearer " then some (jsSlice h 7) else none

/-! ## Worker `/mcp` handler and local CLI credential resolution -/

/-- The edge worker's `/mcp` credential resolution (worker entry):
`resolveGitHubToken(request) || env.GITHUB_PAT`. -/
def edgeResolvedPat (authHeader : Option String) (envPat : String) : String :=
  jsOrDefault (resolveGitHubToken authHeader) envPat

/-- `getArg` from src/main.ts: the value following the first occurrence
of `name` in the argument list, if any. -/
def getArg (args : List String) (name : String) : Option String :=
  match args.indexOf? name with
  | some i => args.get? (i + 1)
  | none => none

/-- The local CLI's startup credential (src/main.ts):
`getArg("--github-pat") || process.env.GITHUB_PAT || undefined`. -/
def localResolvedPat (args : List String) (envPat : Option String) : Option String :=
  jsOr (getArg args "--github-pat") (jsOr envPat none)

/-! ## JSON values and the registration endpoint (`handleRegister`) -/

/-- JSON values, as produced by `JSON.parse`. -/
inductive JVal where
  | null
  | bool (b : Bool)
  | num (n : Int)
  | str (s : String)
  | arr (xs : List JVal)
  | obj (fields : List (String × JVal))

/-- JS truthiness of a JSON value: `null`, `false`, `0` and `""` are
falsy; arrays and objects are always truthy. -/
def jsTruthyJ : JVal → Bool
  | .null => false
  | .bool b => b
  | .num n => n != 0
  | .str s => s != ""
  | .arr _ => true
  | .obj _ => true

/-- JS property read on a non-null JSON value: object members are looked
up (last duplicate wins, as `JSON.parse` does); any member access on a
primitive or array yields `undefined`. -/
def jsPropD : JVal → String → Option JVal
  | .obj fs, k => fs.reverse.lookup k
  | _, _ => none

/-- JS property read including the `null` case: member access on `null`
throws a `TypeError`, modelled as `Except.error ()`. -/
def jsProp (b : JVal) (k : String) : Except Unit (Option JVal) :=
  match b with
  | .null => .error ()
  | _ => .ok (jsPropD b k)

/-- JS `a || b` on JSON values. -/
def jsOrJ (a : Option JVal) (d : JVal) : JVal :=
  match a with
  | none => d
  | some v => if jsTruthyJ v then v else d

/-- The RegisteredClient record returned by `handleRegister` on
success. -/
structure RegisteredClient where
  client_id : String
  client_secret : String
  redirect_uris : JVal
  client_name : JVal
  grant_types : JVal
  response_types : JVal
  token_endpoint_auth_method : JVal
  client_id_issued_at : Int
  client_secret_expires_at : Int

/-- Body of a registration-endpoint response. -/
inductive RegBody where
  | client (c : RegisteredClient)
  | err (error : String) (error_description : String)

/-- A registration-endpoint HTTP response. -/
structure RegResp where
  status : Nat
  body : RegBody

/-- The success payload of `handleRegister`: the caller-supplied fields
with their defaults applied, plus the freshly generated identifiers and
the issuance timestamp (`Math.floor(Date.now() / 1000)`, passed in). -/
def mkRegisteredClient (b : JVal) (ru : JVal)
    (clientId clientSecret : String) (issuedAt : Int) : RegisteredClient :=
  { client_id := clientId
    client_secret := clientSecret
    redirect_uris := ru
    client_name := jsOrJ (jsPropD b "client_name") (.str "MCP Client")
    grant_types := jsOrJ (jsPropD b "grant_types")
      (.arr [.str "client_credentials", .str "authorization_code", .str "refresh_token"])
    response_types := jsOrJ (jsPropD b "response_types") (.arr [.str "code"])
    token_endpoint_auth_method := jsOrJ (jsPropD b "token_endpoint_auth_method")
      (.str "client_secret_post")
    client_id_issued_at := issuedAt
    client_secret_expires_at := 0 }

/-- `handleRegister` from src/auth.ts.  `body` is the result of
`request.json()` (`none` models a caught parse exception); `clientId`
and `clientSecret` are the two `generateId` outputs (random, generated
outside this pure model).  Reading `redirect_uris` off a JSON `null`
body throws an uncaught `TypeError`, modelled as `Except.error ()`. -/
def handleRegister (method : String) (body : Option JVal)
    (clientId clientSecret : String) (issuedAt : Int) : Except Unit RegResp :=
  if method ≠ "POST" then .ok ⟨405, .err "invalid_request" "Method must be POST"⟩
  else match body with
  | none => .ok ⟨400, .err "invalid_request" "Invalid JSON body"⟩
  | some b =>
    match jsProp b "redirect_uris" with
    | .error e => .error e
    | .ok ru =>
      match ru with
      | some (.arr (x :: xs)) =>
        .ok ⟨201, .client (mkRegisteredClient b (.arr (x :: xs)) clientId clientSecret issuedAt)⟩
      | _ => .ok ⟨400, .err "invalid_client_metadata" "redirect_uris is required"⟩

/-! ## GitHub API client (src/server.ts and src/index.ts) -/

/-- Headers built by `githubFetch` in src/server.ts: the `Authorization`
header is added only when the optional `pat` is truthy. -/
def ghJsonHeaders (pat : Option String) : List (String × String) :=
  if jsFalsy pat then
    [("Accept", "application/vnd.github.v3+json"), ("User-Agent", "github-mcp")]
  else
    [("Accept", "application/vnd.github.v3+json"), ("User-Agent", "github-mcp"),
      ("Authorization", "Bearer " ++ jsToString pat)]

/-- Headers built by `githubRawFetch` in src/server.ts. -/
def ghRawHeaders (pat : Option String) : List (String × String) :=
  if jsFalsy pat then
    [("Accept", "application/vnd.github.v3.raw"), ("User-Agent", "github-mcp")]
  else
    [("Accept", "application/vnd.github.v3.raw"), ("User-Agent", "github-mcp"),
      ("Authorization", "Bearer " ++ jsToString pat)]

/-- Headers built by `githubFetch` in the legacy src/index.ts variant:
the `Authorization` header is attached unconditionally. -/
def legacyJsonHeaders (pat : String) : List (String × String) :=
  [("Authorization", "Bearer " ++ pat), ("Accept", "application/vnd.github.v3+json"),
    ("User-Agent", "github-mcp-worker")]

/-- Headers built by `githubRawFetch` in the legacy src/index.ts
variant. -/
def legacyRawHeaders (pat : String) : List (String × String) :=
  [("Authorization", "Bearer " ++ pat), ("Accept", "application/vnd.github.v3.raw"),
    ("User-Agent", "github-mcp-worker")]

/-- Read a header from a header record. -/
def headerGet (hs : List (String × String)) (k : String) : Option String :=
  hs.lookup k

/-- `Response.ok` per the Fetch specification: status in 200..299. -/
def respOk (status : Nat) : Bool :=
  decide (200 ≤ status) && decide (status ≤ 299)

/-- The error message thrown by both fetch helpers on a non-success
status: the status code and the full upstream body text. -/
def githubFetchMessage (status : Nat) (text : String) : String :=
  "GitHub API " ++ toString status ++ ": " ++ text

/-- Outcome of `githubFetch` (src/server.ts and src/index.ts, identical
logic) given the upstream status and body text; `jsonParse` is the
platform `res.json()`. -/
def githubFetchResult (jsonParse : String → Except String JVal)
    (status : Nat) (text : String) : Except String JVal :=
  if respOk status then jsonParse text
  else .error (githubFetchMessage status text)

/-- Outcome of `githubRawFetch` (both variants) given the upstream
status and body text. -/
def githubRawFetchResult (status : Nat) (text : String) : Except String String :=
  if respOk status then .ok text
  else .error (githubFetchMessage status text)

/-! ## Paginated tool URL builders

Each mirrors the template literal in the corresponding handler; the
`per_page` clamp is `Math.min(per_page, 30)`. -/

/-- `search_repos` (src/server.ts; textually identical in
src/index.ts). -/
def search_reposUrl (query : String) (per_page : Int) : String :=
  "/search/repositories?q=" ++ encodeURIComponent query ++ "&per_page=" ++
    toString (min per_page 30)

/-- `search_code` (both variants). -/
def search_codeUrl (query : String) (per_page : Int) : String :=
  "/search/code?q=" ++ encodeURIComponent query ++ "&per_page=" ++
    toString (min per_page 30)

/-- `list_commits` (both variants). -/
def list_commitsUrl (owner repo : String) (path : Option String) (per_page : Int) : String :=
  "/repos/" ++ owner ++ "/" ++ repo ++ "/commits?per_page=" ++ toString (min per_page 30) ++
    (if jsFalsy path then "" else "&path=" ++ encodeURIComponent (jsToString path))

/-- `list_issues` (src/server.ts). -/
def list_issuesUrl (owner repo state : String) (labels : Option String) (per_page : Int) : String :=
  "/repos/" ++ owner ++ "/" ++ repo ++ "/issues?state=" ++ state ++ "&per_page=" ++
    toString (min per_page 30) ++
    (if jsFalsy labels then "" else "&labels=" ++ encodeURIComponent (jsToString labels))

/-- `get_issue_comments` (both variants). -/
def get_issue_commentsUrl (owner repo : String) (issue_number per_page : Int) : String :=
  "/repos/" ++ owner ++ "/" ++ repo ++ "/issues/" ++ toString issue_number ++
    "/comments?per_page=" ++ toString (min per_page 30)

/-- `list_pulls` (src/server.ts). -/
def list_pullsUrl (owner repo state : String) (per_page : Int) : String :=
  "/repos/" ++ owner ++ "/" ++ repo ++ "/pulls?state=" ++ state ++ "&per_page=" ++
    toString (min per_page 30)

/-- `list_issues` in the legacy src/index.ts variant: adds a `sort`
query parameter absent from src/server.ts. -/
def index_list_issuesUrl (owner repo state : String) (labels : Option String)
    (sort : String) (per_page : Int) : String :=
  "/repos/" ++ owner ++ "/" ++ repo ++ "/issues?state=" ++ state ++ "&sort=" ++ sort ++
    "&per_page=" ++ toString (min per_page 30) ++
    (if jsFalsy labels then "" else "&labels=" ++ encodeURIComponent (jsToString labels))

/-- `list_pulls` in the legacy src/index.ts variant. -/
def index_list_pullsUrl (owner repo state sort : String) (per_page : Int) : String :=
  "/repos/" ++ owner ++ "/" ++ repo ++ "/pulls?state=" ++ state ++ "&sort=" ++ sort ++
    "&per_page=" ++ toString (min per_page 30)

/-- Tool names registered by `createServer` in src/server.ts, in
registration order. -/
def serverToolNames : List String :=
  ["search_repos", "search_code", "get_repo", "list_contents", "read_file", "get_readme",
    "list_commits", "get_tree", "list_issues", "get_issue", "get_issue_comments",
    "list_pulls", "get_pull", "get_pull_files"]

/-- Tool names registered by `GitHubMCP.init` in src/index.ts, in
registration order. -/
def indexToolNames : List String :=
  ["search_repos", "search_code", "get_repo", "list_contents", "read_file", "get_readme",
    "list_commits", "list_issues", "get_issue", "get_issue_comments", "list_pulls",
    "get_pull", "get_pull_files", "get_tree"]

/-- `per_page` default of `list_issues` in src/server.ts
(`z.number().optional().default(10)`). -/
def server_list_issues_per_page_default : Int := 10

/-- `per_page` default of `list_issues` in src/index.ts
(`z.number().optional().default(15)`). -/
def index_list_issues_per_page_default : Int := 15

/-- An upstream GitHub label object, as read by the issue
projections (`l.name`). -/
structure GhLabel where
  name : String

/-- The upstream GitHub issue fields read by the two `get_issue`
handlers (`user_login` is the upstream `user.login`). -/
structure GhIssue where
  number : Int
  title : String
  state : String
  body : String
  labels : List GhLabel
  user_login : String
  comments : Int
  created_at : String
  updated_at : String
  html_url : String

/-- The `get_issue` output projection of src/server.ts: the object
literal `{number, title, state, body, labels, author, created,
comments}`, with fields in the literal's insertion order, as
`JSON.stringify` emits them. -/
def server_get_issue_project (d : GhIssue) : JVal :=
  .obj [("number", .num d.number), ("title", .str d.title), ("state", .str d.state),
    ("body", .str d.body), ("labels", .arr (d.labels.map fun l => .str l.name)),
    ("author", .str d.user_login), ("created", .str d.created_at),
    ("comments", .num d.comments)]

/-- The `get_issue` output projection of src/index.ts: the object
literal `{number, title, state, author, labels, body, comments,
created, updated, url}` — it additionally emits the upstream
`updated_at` and `html_url` fields. -/
def index_get_issue_project (d : GhIssue) : JVal :=
  .obj [("number", .num d.number), ("title", .str d.title), ("state", .str d.state),
    ("author", .str d.user_login), ("labels", .arr (d.labels.map fun l => .str l.name)),
    ("body", .str d.body), ("comments", .num d.comments), ("created", .str d.created_at),
    ("updated", .str d.updated_at), ("url", .str d.html_url)]

/-- A concrete upstream issue response, used to separate the two
`get_issue` projections. -/
def sampleIssue : GhIssue :=
  ⟨42, "title", "open", "body text", [⟨"bug"⟩], "alice", 3,
    "2024-01-01T00:00:00Z", "2024-02-01T00:00:00Z", "https://example.invalid/i/42"⟩

/-! ## Claim theorems -/

/-- C1: Token-exchange round-trip identity.  For every non-empty string
S, a POST to the token endpoint with grant_type=client_credentials and
client_secret=S returns status 200 with access_token = S and token_type
"Bearer"; grant_type=authorization_code with client_secret=S likewise
returns access_token = S; grant_type=refresh_token with refresh_token=S
returns access_token = S and refresh_token = S.  The façade never mints
or transforms the credential. -/
theorem token_roundtrip_identity (b : FormBody) (S : String) (hS : S ≠ "") :
    (jsGet b "grant_type" = some "client_credentials" →
      jsGet b "client_secret" = some S →
      handleToken "POST" (some b) = ⟨200, .token S "Bearer" none⟩) ∧
    (jsGet b "grant_type" = some "authorization_code" →
      jsGet b "client_secret" = some S →
      handleToken "POST" (some b) = ⟨200, .token S "Bearer" none⟩) ∧
    (jsGet b "grant_type" = some "refresh_token" →
      jsGet b "refresh_token" = some S →
      handleToken "POST" (some b) = ⟨200, .token S "Bearer" (some S)⟩) := by
  refine ⟨fun hg hs => ?_, fun hg hs => ?_, fun hg hr => ?_⟩
  · simp [handleToken, hg, hs, jsFalsy, jsToString, hS]
  · simp [handleToken, hg, hs, jsFalsy, jsToString, hS]
  · simp [handleToken, hg, hr, jsFalsy, jsToString, hS]

/-- Witness for C1 at concrete bodies. -/
theorem token_roundtrip_identity_witness :
    handleToken "POST" (some [("grant_type", "client_credentials"), ("client_secret", "ghp_tok")])
      = ⟨200, .token "ghp_tok" "Bearer" none⟩ ∧
    handleToken "POST" (some [("grant_type", "refresh_token"), ("refresh_token", "ghp_tok")])
      = ⟨200, .token "ghp_tok" "Bearer" (some "ghp_tok")⟩ :=
  ⟨(token_roundtrip_identity [("grant_type", "client_credentials"), ("client_secret", "ghp_tok")]
      "ghp_tok" (by decide)).1 rfl rfl,
    (token_roundtrip_identity [("grant_type", "refresh_token"), ("refresh_token", "ghp_tok")]
      "ghp_tok" (by decide)).2.2 rfl rfl⟩

/-- C2: the credential resolver returns, for an `Authorization` header
that is exactly "Bearer " followed by C, exactly C; for an absent
header, or one not beginning with "Bearer ", it returns `undefined`.
It is a total function, hence never throws. -/
theorem resolver_returns_bearer_verbatim (C h : String)
    (hh : jsStartsWith h "Bearer " = false) :
    resolveGitHubToken (some ("Bearer " ++ C)) = some C ∧
    resolveGitHubToken none = none ∧
    resolveGitHubToken (some h) = none := by
  refine ⟨?_, rfl, by simp [resolveGitHubToken, hh]⟩
  have hpre : jsStartsWith ("Bearer " ++ C) "Bearer " = true := by
    simp [jsStartsWith, String.data_append, List.isPrefixOf_iff_prefix]
  simp only [resolveGitHubToken, hpre, if_true]
  rfl

/-- Witness for C2 at a concrete credential and a concrete malformed
header. -/
theorem resolver_returns_bearer_verbatim_witness :
    resolveGitHubToken (some ("Bearer " ++ "ghp_abc")) = some "ghp_abc" ∧
    resolveGitHubToken none = none ∧
    resolveGitHubToken (some "Basic xyz") = none :=
  resolver_returns_bearer_verbatim "ghp_abc" "Basic xyz" (by decide)

/-- C3: fallback asymmetry.  With no `Authorization` header, the edge
worker's `/mcp` handler resolves `env.GITHUB_PAT`, while the local
process resolves the `--github-pat` CLI flag value, else the
`GITHUB_PAT` environment value, else absence (a value supplied but
empty is falsy and is passed over, matching the `||` chain).  Both
resolvers are total functions, hence never throw. -/
theorem credential_fallback_asymmetry (envPat : String) (args : List String)
    (envVar : Option String) :
    edgeResolvedPat none envPat = envPat ∧
    (∀ f, getArg args "--github-pat" = some f → f ≠ "" →
      localResolvedPat args envVar = some f) ∧
    (jsFalsy (getArg args "--github-pat") = true →
      ∀ e, envVar = some e → e ≠ "" → localResolvedPat args envVar = some e) ∧
    (jsFalsy (getArg args "--github-pat") = true → jsFalsy envVar = true →
      localResolvedPat args envVar = none) := by
  refine ⟨rfl, fun f hf hne => ?_, fun hg e he hne => ?_, fun hg henv => ?_⟩
  · simp [localResolvedPat, jsOr, hf, jsFalsy, hne]
  · subst he
    simp only [localResolvedPat, jsOr, hg, if_true]
    simp [jsFalsy, hne]
  · simp [localResolvedPat, jsOr, hg, henv]

/-- Witness for C3 at a concrete argument list and environment. -/
theorem credential_fallback_asymmetry_witness :
    edgeResolvedPat none "op-default" = "op-default" ∧
    localResolvedPat ["--github-pat", "cli-tok"] (some "env-tok") = some "cli-tok" ∧
    localResolvedPat ["--stdio"] (some "env-tok") = some "env-tok" ∧
    localResolvedPat ["--stdio"] none = none :=
  ⟨(credential_fallback_asymmetry "op-default" [] none).1,
    (credential_fallback_asymmetry "x" ["--github-pat", "cli-tok"] (some "env-tok")).2.1
      "cli-tok" rfl (by decide),
    (credential_fallback_asymmetry "x" ["--stdio"] (some "env-tok")).2.2.1
      rfl "env-tok" rfl (by decide),
    (credential_fallback_asymmetry "x" ["--stdio"] none).2.2.2 rfl rfl⟩

/-- C10: empty-bearer edge case.  For the header exactly "Bearer ", the
resolver returns the empty string; the edge `/mcp` handler's truthiness
fallback (`resolveGitHubToken(request) || env.GITHUB_PAT`) therefore
substitutes the process-wide default, so the outbound call carries the
operator's default PAT rather than going out anonymously. -/
theorem empty_bearer_uses_default (envPat : String) (hne : envPat ≠ "") :
    resolveGitHubToken (some "Bearer ") = some "" ∧
    edgeResolvedPat (some "Bearer ") envPat = envPat ∧
    headerGet (ghJsonHeaders (some (edgeResolvedPat (some "Bearer ") envPat))) "Authorization"
      = some ("Bearer " ++ envPat) := by
  refine ⟨rfl, rfl, ?_⟩
  have hf : jsFalsy (some envPat) = false := by simp [jsFalsy, hne]
  have he : edgeResolvedPat (some "Bearer ") envPat = envPat := rfl
  rw [he]
  simp [ghJsonHeaders, hf, headerGet, jsToString, List.lookup]

/-- Witness for C10 at a concrete default credential. -/
theorem empty_bearer_uses_default_witness :
    resolveGitHubToken (some "Bearer ") = some "" ∧
    edgeResolvedPat (some "Bearer ") "op-default" = "op-default" ∧
    headerGet (ghJsonHeaders (some (edgeResolvedPat (some "Bearer ") "op-default")))
      "Authorization" = some ("Bearer " ++ "op-default") :=
  empty_bearer_uses_default "op-default" (by decide)

/-- C4: token endpoint error taxonomy.  client_credentials without a
client_secret fails with invalid_request; authorization_code without a
client_secret fails with invalid_grant (and no branch ever reads the
`code` field: the outcome depends only on the grant_type, client_secret
and refresh_token fields); refresh_token without a refresh_token fails
with invalid_request; any other grant type fails with
unsupported_grant_type naming the rejected grant type.  Bodies are
accepted form-encoded or JSON-encoded, form-decoding is attempted
first (and, the form decoder being total, always succeeds when no JSON
content type is declared), and an unparseable body fails with
invalid_request. -/
theorem token_error_taxonomy (jsonParse : String → Option FormBody)
    (b b2 : FormBody) (g m : String) (ct : Option String) (text : String) :
    (jsGet b "grant_type" = some "client_credentials" →
      jsFalsy (jsGet b "client_secret") = true →
      handleToken "POST" (some b) = ⟨400, .err "invalid_request" "client_secret is required"⟩) ∧
    (jsGet b "grant_type" = some "authorization_code" →
      jsFalsy (jsGet b "client_secret") = true →
      handleToken "POST" (some b)
        = ⟨400, .err "invalid_grant" "client_secret is required for token exchange"⟩) ∧
    (jsGet b "grant_type" = some "refresh_token" →
      jsFalsy (jsGet b "refresh_token") = true →
      handleToken "POST" (some b) = ⟨400, .err "invalid_request" "refresh_token is required"⟩) ∧
    (jsGet b "grant_type" = jsGet b2 "grant_type" →
      jsGet b "client_secret" = jsGet b2 "client_secret" →
      jsGet b "refresh_token" = jsGet b2 "refresh_token" →
      handleToken m (some b) = handleToken m (some b2)) ∧
    (jsGet b "grant_type" = some g → g ≠ "client_credentials" →
      g ≠ "authorization_code" → g ≠ "refresh_token" →
      handleToken "POST" (some b)
        = ⟨400, .err "unsupported_grant_type" ("Unsupported grant_type: " ++ g)⟩ ∧
      g.data <:+: ("Unsupported grant_type: " ++ g).data) ∧
    (jsIncludes (ct.getD "") "application/x-www-form-urlencoded" = true →
      parseBody jsonParse ct text = some (formParse text)) ∧
    (jsIncludes (ct.getD "") "application/x-www-form-urlencoded" = false →
      jsIncludes (ct.getD "") "application/json" = false →
      parseBody jsonParse ct text = some (formParse text)) ∧
    (jsIncludes (ct.getD "") "application/x-www-form-urlencoded" = false →
      jsIncludes (ct.getD "") "application/json" = true → jsonParse text = none →
      tokenEndpoint jsonParse "POST" ct text
        = ⟨400, .err "invalid_request" "Invalid request body"⟩) := by
  refine ⟨fun hg hs => ?_, fun hg hs => ?_, fun hg hs => ?_, fun e1 e2 e3 => ?_,
    fun hg h1 h2 h3 => ⟨?_, ?_⟩, fun hf => ?_, fun hf hj => ?_, fun hf hj hp => ?_⟩
  · simp [handleToken, hg, hs]
  · simp [handleToken, hg, hs]
  · simp [handleToken, hg, hs]
  · simp only [handleToken, e1, e2, e3]
  · simp [handleToken, hg, h1, h2, h3, jsToString]
  · exact ⟨"Unsupported grant_type: ".data, [], by simp [String.data_append]⟩
  · simp [parseBody, hf]
  · simp [parseBody, hf, hj]
  · simp [tokenEndpoint, parseBody, hf, hj, hp, handleToken]

/-- Witness for C4 at concrete bodies and content types. -/
theorem token_error_taxonomy_witness :
    handleToken "POST" (some [("grant_type", "client_credentials")])
      = ⟨400, .err "invalid_request" "client_secret is required"⟩ ∧
    handleToken "POST" (some [("grant_type", "authorization_code"), ("code", "abc")])
      = ⟨400, .err "invalid_grant" "client_secret is required for token exchange"⟩ ∧
    handleToken "POST" (some [("grant_type", "refresh_token")])
      = ⟨400, .err "invalid_request" "refresh_token is required"⟩ ∧
    handleToken "POST" (some [("grant_type", "nonsense")])
      = ⟨400, .err "unsupported_grant_type" ("Unsupported grant_type: " ++ "nonsense")⟩ ∧
    tokenEndpoint (fun _ => none) "POST" (some "application/json") "not json"
      = ⟨400, .err "invalid_request" "Invalid request body"⟩ :=
  ⟨(token_error_taxonomy (fun _ => none) [("grant_type", "client_credentials")] [] "x" "POST"
      none "").1 rfl rfl,
    (token_error_taxonomy (fun _ => none)
      [("grant_type", "authorization_code"), ("code", "abc")] [] "x" "POST" none "").2.1 rfl rfl,
    (token_error_taxonomy (fun _ => none) [("grant_type", "refresh_token")] [] "x" "POST"
      none "").2.2.1 rfl rfl,
    ((token_error_taxonomy (fun _ => none) [("grant_type", "nonsense")] [] "nonsense" "POST"
      none "").2.2.2.2.1 rfl (by decide) (by decide) (by decide)).1,
    (token_error_taxonomy (fun _ => none) [] [] "x" "POST" (some "application/json")
      "not json").2.2.2.2.2.2.2 (by decide) (by decide) rfl⟩

/-- C6 counterexample: in the src/server.ts client, a resolved-but-empty
credential (`some ""`) is truthy-checked away, so no Authorization
header is attached even though a credential was resolved for the call —
refuting "header present iff a credential was resolved". -/
theorem auth_header_iff_credential_counterexample :
    headerGet (ghJsonHeaders (some "")) "Authorization" = none ∧
    (some "" : Option String).isSome = true :=
  ⟨rfl, rfl⟩

/-- C6 as amended: in the src/server.ts client (JSON and raw variant)
the request carries `Authorization: Bearer <credential>` iff the
resolved credential is present AND non-empty; with no credential, or an
empty one, no Authorization header is attached.  The legacy
src/index.ts variant instead attaches the header unconditionally with
the environment PAT. -/
theorem auth_header_iff_nonempty_credential (p : String) (hp : p ≠ "") :
    headerGet (ghJsonHeaders (some p)) "Authorization" = some ("Bearer " ++ p) ∧
    headerGet (ghRawHeaders (some p)) "Authorization" = some ("Bearer " ++ p) ∧
    headerGet (ghJsonHeaders none) "Authorization" = none ∧
    headerGet (ghRawHeaders none) "Authorization" = none ∧
    headerGet (ghJsonHeaders (some "")) "Authorization" = none ∧
    headerGet (ghRawHeaders (some "")) "Authorization" = none ∧
    headerGet (legacyJsonHeaders p) "Authorization" = some ("Bearer " ++ p) ∧
    headerGet (legacyRawHeaders p) "Authorization" = some ("Bearer " ++ p) := by
  have hf : jsFalsy (some p) = false := by simp [jsFalsy, hp]
  refine ⟨?_, ?_, rfl, rfl, rfl, rfl, rfl, rfl⟩
  · simp [ghJsonHeaders, hf, headerGet, jsToString, List.lookup]
  · simp [ghRawHeaders, hf, headerGet, jsToString, List.lookup]

/-- Witness for the amended C6 at a concrete credential. -/
theorem auth_header_iff_nonempty_credential_witness :
    headerGet (ghJsonHeaders (some "ghp_tok")) "Authorization" = some ("Bearer " ++ "ghp_tok") ∧
    headerGet (ghRawHeaders (some "ghp_tok")) "Authorization" = some ("Bearer " ++ "ghp_tok") :=
  ⟨(auth_header_iff_nonempty_credential "ghp_tok" (by decide)).1,
    (auth_header_iff_nonempty_credential "ghp_tok" (by decide)).2.1⟩

/-- C8: per_page clamping.  For every paginated tool, a supplied
per_page of at least 31 is clamped to exactly 30 in the outbound query
string, and a value of at most 30 is placed unchanged.  Covers the six
paginated tools of src/server.ts and the two src/index.ts variants
whose URLs differ (the remaining src/index.ts builders are textually
identical to src/server.ts). -/
theorem per_page_clamped_to_30 (v : Int) (q o r st srt : String)
    (lb pth : Option String) (n : Int) :
    (31 ≤ v →
      search_reposUrl q v
        = "/search/repositories?q=" ++ encodeURIComponent q ++ "&per_page=" ++ "30" ∧
      search_codeUrl q v = "/search/code?q=" ++ encodeURIComponent q ++ "&per_page=" ++ "30" ∧
      list_commitsUrl o r pth v
        = "/repos/" ++ o ++ "/" ++ r ++ "/commits?per_page=" ++ "30" ++
          (if jsFalsy pth then "" else "&path=" ++ encodeURIComponent (jsToString pth)) ∧
      list_issuesUrl o r st lb v
        = "/repos/" ++ o ++ "/" ++ r ++ "/issues?state=" ++ st ++ "&per_page=" ++ "30" ++
          (if jsFalsy lb then "" else "&labels=" ++ encodeURIComponent (jsToString lb)) ∧
      get_issue_commentsUrl o r n v
        = "/repos/" ++ o ++ "/" ++ r ++ "/issues/" ++ toString n ++ "/comments?per_page=" ++ "30" ∧
      list_pullsUrl o r st v
        = "/repos/" ++ o ++ "/" ++ r ++ "/pulls?state=" ++ st ++ "&per_page=" ++ "30" ∧
      index_list_issuesUrl o r st lb srt v
        = "/repos/" ++ o ++ "/" ++ r ++ "/issues?state=" ++ st ++ "&sort=" ++ srt ++
          "&per_page=" ++ "30" ++
          (if jsFalsy lb then "" else "&labels=" ++ encodeURIComponent (jsToString lb)) ∧
      index_list_pullsUrl o r st srt v
        = "/repos/" ++ o ++ "/" ++ r ++ "/pulls?state=" ++ st ++ "&sort=" ++ srt ++
          "&per_page=" ++ "30") ∧
    (v ≤ 30 →
      search_reposUrl q v
        = "/search/repositories?q=" ++ encodeURIComponent q ++ "&per_page=" ++ toString v ∧
      search_codeUrl q v
        = "/search/code?q=" ++ encodeURIComponent q ++ "&per_page=" ++ toString v ∧
      list_commitsUrl o r pth v
        = "/repos/" ++ o ++ "/" ++ r ++ "/commits?per_page=" ++ toString v ++
          (if jsFalsy pth then "" else "&path=" ++ encodeURIComponent (jsToString pth)) ∧
      list_issuesUrl o r st lb v
        = "/repos/" ++ o ++ "/" ++ r ++ "/issues?state=" ++ st ++ "&per_page=" ++ toString v ++
          (if jsFalsy lb then "" else "&labels=" ++ encodeURIComponent (jsToString lb)) ∧
      get_issue_commentsUrl o r n v
        = "/repos/" ++ o ++ "/" ++ r ++ "/issues/" ++ toString n ++ "/comments?per_page=" ++
          toString v ∧
      list_pullsUrl o r st v
        = "/repos/" ++ o ++ "/" ++ r ++ "/pulls?state=" ++ st ++ "&per_page=" ++ toString v ∧
      index_list_issuesUrl o r st lb srt v
        = "/repos/" ++ o ++ "/" ++ r ++ "/issues?state=" ++ st ++ "&sort=" ++ srt ++
          "&per_page=" ++ toString v ++
          (if jsFalsy lb then "" else "&labels=" ++ encodeURIComponent (jsToString lb)) ∧
      index_list_pullsUrl o r st srt v
        = "/repos/" ++ o ++ "/" ++ r ++ "/pulls?state=" ++ st ++ "&sort=" ++ srt ++
          "&per_page=" ++ toString v) := by
  constructor
  · intro hv
    have hm : min v 30 = 30 := min_eq_right (by omega)
    have h30 : toString ((30 : Int)) = "30" := rfl
    simp only [search_reposUrl, search_codeUrl, list_commitsUrl, list_issuesUrl,
      get_issue_commentsUrl, list_pullsUrl, index_list_issuesUrl, index_list_pullsUrl, hm, h30]
    exact ⟨trivial, trivial, trivial, trivial, trivial, trivial, trivial, trivial⟩
  · intro hv
    have hm : min v 30 = v := min_eq_left hv
    simp only [search_reposUrl, search_codeUrl, list_commitsUrl, list_issuesUrl,
      get_issue_commentsUrl, list_pullsUrl, index_list_issuesUrl, index_list_pullsUrl, hm]
    exact ⟨trivial, trivial, trivial, trivial, trivial, trivial, trivial, trivial⟩

/-- Witness for C8: requests for 31 and 100 results are clamped to 30
(search_repos and list_issues), and requests for 10 and 30 results pass
through unchanged (search_repos and get_issue_comments). -/
theorem per_page_clamped_to_30_witness :
    search_reposUrl "grpo" 31
      = "/search/repositories?q=" ++ encodeURIComponent "grpo" ++ "&per_page=" ++ "30" ∧
    list_issuesUrl "o" "r" "open" none 100
      = "/repos/" ++ "o" ++ "/" ++ "r" ++ "/issues?state=" ++ "open" ++ "&per_page=" ++ "30" ++
        (if jsFalsy none then "" else "&labels=" ++ encodeURIComponent (jsToString none)) ∧
    search_reposUrl "grpo" 10
      = "/search/repositories?q=" ++ encodeURIComponent "grpo" ++ "&per_page=" ++
        toString (10 : Int) ∧
    get_issue_commentsUrl "o" "r" 7 30
      = "/repos/" ++ "o" ++ "/" ++ "r" ++ "/issues/" ++ toString (7 : Int) ++
        "/comments?per_page=" ++ toString (30 : Int) :=
  ⟨((per_page_clamped_to_30 31 "grpo" "o" "r" "open" "created" none none 1).1
      (by decide)).1,
    ((per_page_clamped_to_30 100 "grpo" "o" "r" "open" "created" none none 1).1
      (by decide)).2.2.2.1,
    ((per_page_clamped_to_30 10 "grpo" "o" "r" "open" "created" none none 1).2
      (by decide)).1,
    ((per_page_clamped_to_30 30 "grpo" "o" "r" "open" "created" none none 7).2
      (by decide)).2.2.2.2.1⟩

/-- C9: upstream error surfacing.  On a non-success status the API
client (JSON and raw variants share this logic in both files) fails
with an error whose message embeds the status code and the upstream
body verbatim, and returns no value; on a success status the raw
variant returns the body text and the JSON variant returns whatever
`res.json()` parses. -/
theorem upstream_error_embeds_status_and_body
    (jsonParse : String → Except String JVal) (status : Nat) (text : String) :
    (respOk status = false →
      githubFetchResult jsonParse status text = .error (githubFetchMessage status text) ∧
      githubRawFetchResult status text = .error (githubFetchMessage status text) ∧
      (toString status).data <:+: (githubFetchMessage status text).data ∧
      text.data <:+: (githubFetchMessage status text).data) ∧
    (respOk status = true →
      githubRawFetchResult status text = .ok text ∧
      ∀ j, jsonParse text = .ok j → githubFetchResult jsonParse status text = .ok j) := by
  constructor
  · intro h
    refine ⟨by simp [githubFetchResult, h], by simp [githubRawFetchResult, h], ?_, ?_⟩
    · exact ⟨"GitHub API ".data, (": " ++ text).data,
        by simp [githubFetchMessage, String.data_append]⟩
    · exact ⟨("GitHub API " ++ toString status ++ ": ").data, [],
        by simp [githubFetchMessage, String.data_append]⟩
  · intro h
    exact ⟨by simp [githubRawFetchResult, h], fun j hj => by simp [githubFetchResult, h, hj]⟩

/-- Witness for C9: the HTTP 404 / "Not Found" scenario. -/
theorem upstream_error_embeds_status_and_body_witness :
    githubFetchResult (fun _ => .error "unused") 404 "\x7b\"message\":\"Not Found\"\x7d"
      = .error (githubFetchMessage 404 "\x7b\"message\":\"Not Found\"\x7d") ∧
    githubRawFetchResult 200 "raw body" = .ok "raw body" :=
  ⟨((upstream_error_embeds_status_and_body (fun _ => .error "unused") 404
      "\x7b\"message\":\"Not Found\"\x7d").1 (by decide)).1,
    ((upstream_error_embeds_status_and_body (fun _ => .error "unused") 200 "raw body").2
      (by decide)).1⟩

/-- Property access on a non-null JSON value never throws. -/
theorem jsProp_ne_null (b : JVal) (k : String) (h : b ≠ .null) :
    jsProp b k = .ok (jsPropD b k) := by
  cases b <;> simp_all [jsProp]

/-- C5 counterexample: a non-POST request to /register yields an
OAuth-style error response with status 405, not 400 — refuting "every
error response from /register carries status 400". -/
theorem register_error_status_counterexample :
    handleRegister "GET" none "cid" "csec" 0
      = .ok ⟨405, .err "invalid_request" "Method must be POST"⟩ ∧
    (405 : Nat) ≠ 400 :=
  ⟨rfl, by decide⟩

/-- C5 as amended: a POST to /register with a body whose redirect_uris
is a non-empty array returns 201 with the freshly generated client_id
and client_secret; a non-null JSON body whose redirect_uris is missing,
not an array, or empty fails with invalid_client_metadata at 400; an
unparseable JSON body fails with invalid_request at 400; a non-POST
method fails with invalid_request at status 405 (not 400); every error
response carries an OAuth-style error/error_description body with
status 400, except the method error which carries 405.  (A parseable
JSON body that is `null` escapes the taxonomy: reading redirect_uris
off it throws an uncaught TypeError.) -/
theorem register_contract (method : String) (body : Option JVal) (b x : JVal)
    (xs : List JVal) (cid cs : String) (t : Int) :
    (method ≠ "POST" → handleRegister method body cid cs t
      = .ok ⟨405, .err "invalid_request" "Method must be POST"⟩) ∧
    (handleRegister "POST" none cid cs t
      = .ok ⟨400, .err "invalid_request" "Invalid JSON body"⟩) ∧
    (b ≠ .null → jsPropD b "redirect_uris" = some (.arr (x :: xs)) →
      handleRegister "POST" (some b) cid cs t
        = .ok ⟨201, .client (mkRegisteredClient b (.arr (x :: xs)) cid cs t)⟩) ∧
    (b ≠ .null → (∀ y ys, jsPropD b "redirect_uris" ≠ some (.arr (y :: ys))) →
      handleRegister "POST" (some b) cid cs t
        = .ok ⟨400, .err "invalid_client_metadata" "redirect_uris is required"⟩) ∧
    (handleRegister "POST" (some .null) cid cs t = .error ()) ∧
    (∀ st e d, handleRegister method body cid cs t = .ok ⟨st, .err e d⟩ →
      st = 400 ∨ st = 405) := by
  refine ⟨fun hm => by simp [handleRegister, hm], rfl, fun hnull hru => ?_,
    fun hnull hne => ?_, rfl, fun st e d h => ?_⟩
  · simp [handleRegister, jsProp_ne_null b "redirect_uris" hnull, hru]
  · rw [show handleRegister "POST" (some b) cid cs t
        = (match jsProp b "redirect_uris" with
          | .error e => .error e
          | .ok ru =>
            match ru with
            | some (.arr (x :: xs)) =>
              .ok ⟨201, .client (mkRegisteredClient b (.arr (x :: xs)) cid cs t)⟩
            | _ => .ok ⟨400, .err "invalid_client_metadata" "redirect_uris is required"⟩)
      from by simp [handleRegister]]
    rw [jsProp_ne_null b "redirect_uris" hnull]
    rcases hru : jsPropD b "redirect_uris" with _ | v
    · rfl
    · cases v with
      | arr l =>
        cases l with
        | nil => rfl
        | cons y ys => exact absurd hru (hne y ys)
      | null => rfl
      | bool bb => rfl
      | num nn => rfl
      | str ss => rfl
      | obj fs => rfl
  · by_cases hm : method = "POST"
    · subst hm
      cases body with
      | none =>
        rw [show handleRegister "POST" none cid cs t
            = .ok ⟨400, .err "invalid_request" "Invalid JSON body"⟩ from rfl] at h
        simp at h
        omega
      | some bb =>
        by_cases hnull : bb = JVal.null
        · subst hnull
          rw [show handleRegister "POST" (some JVal.null) cid cs t = .error () from rfl] at h
          simp at h
        · rw [show handleRegister "POST" (some bb) cid cs t
              = (match jsProp bb "redirect_uris" with
                | .error e => .error e
                | .ok ru =>
                  match ru with
                  | some (.arr (x :: xs)) =>
                    .ok ⟨201, .client (mkRegisteredClient bb (.arr (x :: xs)) cid cs t)⟩
                  | _ => .ok ⟨400, .err "invalid_client_metadata" "redirect_uris is required"⟩)
            from by simp [handleRegister]] at h
          rw [jsProp_ne_null bb "redirect_uris" hnull] at h
          rcases hru : jsPropD bb "redirect_uris" with _ | v
          · rw [hru] at h
            simp at h
            omega
          · rw [hru] at h
            cases v with
            | arr l =>
              cases l with
              | nil => simp at h; omega
              | cons y ys => simp at h
            | null => simp at h; omega
            | bool bb2 => simp at h; omega
            | num nn => simp at h; omega
            | str ss => simp at h; omega
            | obj fs => simp at h; omega
    · rw [show handleRegister method body cid cs t
          = .ok ⟨405, .err "invalid_request" "Method must be POST"⟩
        from by simp [handleRegister, hm]] at h
      simp at h
      omega

/-- Witness for the amended C5 at concrete requests. -/
theorem register_contract_witness :
    handleRegister "POST" (some (.obj [("redirect_uris", .arr [.str "https://x"])]))
      "cid16" "csec32" 1700000000
      = .ok ⟨201, .client (mkRegisteredClient (.obj [("redirect_uris", .arr [.str "https://x"])])
          (.arr [.str "https://x"]) "cid16" "csec32" 1700000000)⟩ ∧
    handleRegister "POST" (some (.obj [("redirect_uris", .arr [])])) "cid16" "csec32" 0
      = .ok ⟨400, .err "invalid_client_metadata" "redirect_uris is required"⟩ ∧
    handleRegister "DELETE" none "cid16" "csec32" 0
      = .ok ⟨405, .err "invalid_request" "Method must be POST"⟩ :=
  ⟨(register_contract "POST" none (.obj [("redirect_uris", .arr [.str "https://x"])])
      (.str "https://x") [] "cid16" "csec32" 1700000000).2.2.1 (by simp) rfl,
    (register_contract "POST" none (.obj [("redirect_uris", .arr [])])
      (.str "x") [] "cid16" "csec32" 0).2.2.2.1 (by simp) (fun y ys => by simp [jsPropD]),
    (register_contract "DELETE" none (.str "x") (.str "x") [] "cid16" "csec32" 0).1
      (by decide)⟩

/-- C7 counterexample: at equal common arguments (owner, repo, state,
labels, per_page — with the src/index.ts-only sort argument at its
declared default "created"), the two variants' list_issues handlers
build different GitHub API paths, refuting "build the same GitHub API
path from equal arguments". -/
theorem registries_same_path_counterexample :
    index_list_issuesUrl "octocat" "hello-world" "open" none "created" 10
      ≠ list_issuesUrl "octocat" "hello-world" "open" none 10 := by
  decide

/-- C7 as amended: the two deployment variants register the same set of
14 tool names, but their handlers have drifted: the list_issues
argument schemas differ (per_page defaults to 10 in src/server.ts and
to 15 in src/index.ts, which also adds a sort argument); at equal
common arguments list_issues builds different GitHub API paths; and
from an equal upstream response get_issue produces different reshaped
output projections (src/index.ts additionally emits the updated and
url fields). -/
theorem registries_same_names_but_drifted :
    serverToolNames.Perm indexToolNames ∧
    server_list_issues_per_page_default ≠ index_list_issues_per_page_default ∧
    index_list_issuesUrl "o" "r" "open" none "created" 5
      ≠ list_issuesUrl "o" "r" "open" none 5 ∧
    server_get_issue_project sampleIssue ≠ index_get_issue_project sampleIssue := by
  refine ⟨by decide, by decide, by decide, ?_⟩
  intro h
  simp [server_get_issue_project, index_get_issue_project, sampleIssue] at h
